import Mathlib

set_option maxRecDepth 100000

/-!
Verification of the sglang-router-proxy request pipeline
(`src/sglang_router_proxy/__main__.py`).

The Python handler `proxy` is shallowly embedded here:
  * `hashlib.sha256(...).hexdigest()` is embedded as an executable SHA-256
    over lists of byte values (`Nat`, reduced mod 2^32 where the algorithm
    works on 32-bit words);
  * `int(hexdigest, 16)` is `intOfHex`;
  * `json.loads` / `json.dumps` are embedded over the value type `PyVal`
    (JSON numeric literals are modelled as integers; a fraction or
    exponent makes the embedded parser fail, which only strengthens the
    failure-path theorems proved below);
  * the handler body (lines 80-107 of the source) is `proxyCore` /
    `proxyHandler`.

Bodies and header values are modelled as strings; the byte view of a
string is its UTF-8 encoding `strBytes`.
-/

/- ----------------------------------------------------------------
   32-bit word arithmetic on Nat
   ---------------------------------------------------------------- -/

def w32 (x : Nat) : Nat := x % 4294967296

def add32 (a b : Nat) : Nat := (a + b) % 4294967296

def rotr32 (n x : Nat) : Nat := ((x >>> n) ||| (x <<< (32 - n))) % 4294967296

def not32 (x : Nat) : Nat := Nat.xor (w32 x) 4294967295

/- SHA-256 logical functions (FIPS 180-4). -/

def shaCh (x y z : Nat) : Nat := Nat.xor (Nat.land x y) (Nat.land (not32 x) z)

def shaMaj (x y z : Nat) : Nat :=
  Nat.xor (Nat.xor (Nat.land x y) (Nat.land x z)) (Nat.land y z)

def bigSigma0 (x : Nat) : Nat := Nat.xor (Nat.xor (rotr32 2 x) (rotr32 13 x)) (rotr32 22 x)

def bigSigma1 (x : Nat) : Nat := Nat.xor (Nat.xor (rotr32 6 x) (rotr32 11 x)) (rotr32 25 x)

def smallSigma0 (x : Nat) : Nat := Nat.xor (Nat.xor (rotr32 7 x) (rotr32 18 x)) (x >>> 3)

def smallSigma1 (x : Nat) : Nat := Nat.xor (Nat.xor (rotr32 17 x) (rotr32 19 x)) (x >>> 10)

/- SHA-256 round constants. -/

def shaK : List Nat :=
  [1116352408, 1899447441, 3049323471, 3921009573,
   961987163, 1508970993, 2453635748, 2870763221,
   3624381080, 310598401, 607225278, 1426881987,
   1925078388, 2162078206, 2614888103, 3248222580,
   3835390401, 4022224774, 264347078, 604807628,
   770255983, 1249150122, 1555081692, 1996064986,
   2554220882, 2821834349, 2952996808, 3210313671,
   3336571891, 3584528711, 113926993, 338241895,
   666307205, 773529912, 1294757372, 1396182291,
   1695183700, 1986661051, 2177026350, 2456956037,
   2730485921, 2820302411, 3259730800, 3345764771,
   3516065817, 3600352804, 4094571909, 275423344,
   430227734, 506948616, 659060556, 883997877,
   958139571, 1322822218, 1537002063, 1747873779,
   1955562222, 2024104815, 2227730452, 2361852424,
   2428436474, 2756734187, 3204031479, 3329325298]

/- Working state: the eight 32-bit hash variables. -/

structure H8 where
  a : Nat
  b : Nat
  c : Nat
  d : Nat
  e : Nat
  f : Nat
  g : Nat
  h : Nat
deriving Repr, DecidableEq

def shaH0 : H8 :=
  ⟨1779033703, 3144134277, 1013904242, 2773480762,
   1359893119, 2600822924, 528734635, 1541459225⟩

def shaRound (st : H8) (kw : Nat × Nat) : H8 :=
  let t1 := add32 st.h (add32 (bigSigma1 st.e) (add32 (shaCh st.e st.f st.g) (add32 kw.1 kw.2)))
  let t2 := add32 (bigSigma0 st.a) (shaMaj st.a st.b st.c)
  ⟨add32 t1 t2, st.a, st.b, st.c, add32 st.d t1, st.e, st.f, st.g⟩

/- Big-endian 32-bit words of a block of bytes. -/

def toWords : List Nat → List Nat
  | b0 :: b1 :: b2 :: b3 :: rest =>
      (b0 * 16777216 + b1 * 65536 + b2 * 256 + b3) :: toWords rest
  | _ => []

/- Message-schedule extension: append words 16..63. -/

def scheduleStep (w : List Nat) : Nat :=
  let t := w.length
  add32 (add32 (smallSigma1 (w.getD (t - 2) 0)) (w.getD (t - 7) 0))
        (add32 (smallSigma0 (w.getD (t - 15) 0)) (w.getD (t - 16) 0))

def extendSchedule : List Nat → Nat → List Nat
  | w, 0 => w
  | w, k + 1 => extendSchedule (w ++ [scheduleStep w]) k

def compressBlock (h0 : H8) (block : List Nat) : H8 :=
  let w := extendSchedule (toWords block) 48
  let st := (shaK.zip w).foldl shaRound h0
  ⟨add32 h0.a st.a, add32 h0.b st.b, add32 h0.c st.c, add32 h0.d st.d,
   add32 h0.e st.e, add32 h0.f st.f, add32 h0.g st.g, add32 h0.h st.h⟩

/- Merkle-Damgard padding: 0x80, zeros to 56 mod 64, 64-bit big-endian bit length. -/

def padMessage (ms : List Nat) : List Nat :=
  let bitLen := 8 * ms.length
  let zeros := (119 - ms.length % 64) % 64
  ms ++ 128 :: List.replicate zeros 0 ++
    [(bitLen >>> 56) % 256, (bitLen >>> 48) % 256, (bitLen >>> 40) % 256, (bitLen >>> 32) % 256,
     (bitLen >>> 24) % 256, (bitLen >>> 16) % 256, (bitLen >>> 8) % 256, bitLen % 256]

/- Split into 64-byte blocks; the fuel (list length) always suffices. -/

def toBlocks : Nat → List Nat → List (List Nat)
  | 0, _ => []
  | _, [] => []
  | fuel + 1, ms => ms.take 64 :: toBlocks fuel (ms.drop 64)

def sha256Words (ms : List Nat) : List Nat :=
  let padded := padMessage ms
  let hf := (toBlocks padded.length padded).foldl compressBlock shaH0
  [hf.a, hf.b, hf.c, hf.d, hf.e, hf.f, hf.g, hf.h]

/- The 32 digest bytes, big-endian per word. -/

def sha256Digest (ms : List Nat) : List Nat :=
  (sha256Words ms).flatMap (fun w => [(w >>> 24) % 256, (w >>> 16) % 256, (w >>> 8) % 256, w % 256])

/- ----------------------------------------------------------------
   hexdigest / int(s, 16) / UTF-8 bytes of a key
   ---------------------------------------------------------------- -/

def hexDigitChar (d : Nat) : Char :=
  if d < 10 then Char.ofNat (48 + d) else Char.ofNat (87 + d)

def hexChars (bs : List Nat) : List Char :=
  bs.flatMap (fun b => [hexDigitChar (b / 16), hexDigitChar (b % 16)])

/- `hashlib.sha256(ms).hexdigest()`: lowercase big-endian hex of the digest. -/

def hexdigest (ms : List Nat) : String := String.mk (hexChars (sha256Digest ms))

def hexCharVal (c : Char) : Nat :=
  if c.toNat ≤ 57 then c.toNat - 48
  else if c.toNat ≤ 70 then c.toNat - 55
  else c.toNat - 87

/- Python `int(s, 16)` on a plain lowercase hex string. -/

def intOfHex (s : String) : Nat :=
  s.data.foldl (fun acc c => 16 * acc + hexCharVal c) 0

/- UTF-8 encoding of a character / a string (Python `str.encode()`). -/

def utf8Char (c : Char) : List Nat :=
  let n := c.toNat
  if n < 128 then [n]
  else if n < 2048 then [192 + n / 64, 128 + n % 64]
  else if n < 65536 then [224 + n / 4096, 128 + (n / 64) % 64, 128 + n % 64]
  else [240 + n / 262144, 128 + (n / 4096) % 64, 128 + (n / 64) % 64, 128 + n % 64]

def strBytes (s : String) : List Nat := s.data.flatMap utf8Char

/- ----------------------------------------------------------------
   Rank Selector (source line 86):
   rank = int(hashlib.sha256(routing_key.encode()).hexdigest(), 16) % dp_size
   ---------------------------------------------------------------- -/

def rankSelector (key : String) (dpSize : Nat) : Nat :=
  intOfHex (hexdigest (strBytes key)) % dpSize

/- Spec-side reading of the digest: the bytes as one big-endian unsigned
   integer. -/

def beIntOfBytes (bs : List Nat) : Nat := bs.foldl (fun acc b => 256 * acc + b) 0

example : sha256Digest (strBytes "abc") =
    [186, 120, 22, 191, 143, 1, 207, 234, 65, 65, 64, 222, 93, 174, 34, 35,
     176, 3, 97, 163, 150, 23, 122, 156, 180, 16, 255, 97, 242, 0, 21, 173] := by
  decide

example : rankSelector "abc" 16 = 13 := by decide

/- ----------------------------------------------------------------
   Python values produced by json.loads
   ---------------------------------------------------------------- -/

inductive PyVal where
  | none : PyVal
  | bool : Bool → PyVal
  | int : Int → PyVal
  | str : String → PyVal
  | list : List PyVal → PyVal
  | dict : List (String × PyVal) → PyVal

def PyVal.isDict : PyVal → Bool
  | PyVal.dict _ => true
  | _ => false

/- Python dict assignment d[k] = v on an association list: overwrite in
   place if the key exists, else append at the end (insertion order). -/

def dictInsert {α : Type} : List (String × α) → String → α → List (String × α)
  | [], k, v => [(k, v)]
  | p :: rest, k, v => if p.1 = k then (k, v) :: rest else p :: dictInsert rest k v

/- First-match lookup in an association list. -/

def dictGet {α : Type} : List (String × α) → String → Option α
  | [], _ => Option.none
  | p :: rest, k => if p.1 = k then some p.2 else dictGet rest k

/- Python `data[k] = v` on a json.loads result: only dicts support string
   item assignment; every other value raises TypeError. -/

def pySetItem (d : PyVal) (k : String) (v : PyVal) : Except String PyVal :=
  match d with
  | PyVal.dict kvs => Except.ok (PyVal.dict (dictInsert kvs k v))
  | _ => Except.error "TypeError: item assignment unsupported"

/- ----------------------------------------------------------------
   json.loads: a fuel-indexed recursive-descent parser over List Char
   ---------------------------------------------------------------- -/

def lbraceChar : Char := Char.ofNat 123

def rbraceChar : Char := Char.ofNat 125

def isDigitChar (c : Char) : Bool := 48 ≤ c.toNat && c.toNat ≤ 57

def isHexChar (c : Char) : Bool :=
  (48 ≤ c.toNat && c.toNat ≤ 57) || (97 ≤ c.toNat && c.toNat ≤ 102) ||
    (65 ≤ c.toNat && c.toNat ≤ 70)

def skipWs : List Char → List Char
  | [] => []
  | c :: cs => if c = ' ' ∨ c = '\t' ∨ c = '\n' ∨ c = '\r' then skipWs cs else c :: cs

def parseHex4 : List Char → Except String (Nat × List Char)
  | a :: b :: c :: d :: rest =>
      if isHexChar a && isHexChar b && isHexChar c && isHexChar d then
        Except.ok (hexCharVal a * 4096 + hexCharVal b * 256 + hexCharVal c * 16 + hexCharVal d, rest)
      else Except.error "Invalid \\uXXXX escape"
  | _ => Except.error "Invalid \\uXXXX escape"

/- String contents after the opening quote, strict mode: raw control
   characters are rejected, escapes decoded; surrogate pairs in \\u
   escapes are combined. (A lone surrogate, which CPython keeps as a
   surrogate code unit, falls outside Lean Char and is mapped to NUL;
   no claim depends on it.) -/

def parseStringBody : Nat → List Char → List Char → Except String (String × List Char)
  | 0, _, _ => Except.error "fuel exhausted"
  | _, _, [] => Except.error "Unterminated string"
  | fuel + 1, acc, c :: cs =>
    if c = '"' then Except.ok (String.mk acc.reverse, cs)
    else if c = '\\' then
      match cs with
      | [] => Except.error "Unterminated string"
      | e :: cs2 =>
        if e = '"' then parseStringBody fuel ('"' :: acc) cs2
        else if e = '\\' then parseStringBody fuel ('\\' :: acc) cs2
        else if e = '/' then parseStringBody fuel ('/' :: acc) cs2
        else if e = 'b' then parseStringBody fuel (Char.ofNat 8 :: acc) cs2
        else if e = 'f' then parseStringBody fuel (Char.ofNat 12 :: acc) cs2
        else if e = 'n' then parseStringBody fuel ('\n' :: acc) cs2
        else if e = 'r' then parseStringBody fuel ('\r' :: acc) cs2
        else if e = 't' then parseStringBody fuel ('\t' :: acc) cs2
        else if e = 'u' then
          match parseHex4 cs2 with
          | Except.error msg => Except.error msg
          | Except.ok (v, cs3) =>
            if 55296 ≤ v ∧ v < 56320 then
              match cs3 with
              | '\\' :: 'u' :: cs4 =>
                match parseHex4 cs4 with
                | Except.error msg => Except.error msg
                | Except.ok (v2, cs5) =>
                  if 56320 ≤ v2 ∧ v2 < 57344 then
                    parseStringBody fuel
                      (Char.ofNat (65536 + (v - 55296) * 1024 + (v2 - 56320)) :: acc) cs5
                  else parseStringBody fuel (Char.ofNat v2 :: Char.ofNat v :: acc) cs5
              | _ => parseStringBody fuel (Char.ofNat v :: acc) cs3
            else parseStringBody fuel (Char.ofNat v :: acc) cs3
        else Except.error "Invalid \\escape"
    else if c.toNat < 32 then Except.error "Invalid control character"
    else parseStringBody fuel (c :: acc) cs

def digitRun : List Char → List Char × List Char
  | [] => ([], [])
  | c :: cs =>
      if isDigitChar c then
        let r := digitRun cs
        (c :: r.1, r.2)
      else ([], c :: cs)

def natOfDigits (ds : List Char) : Nat :=
  ds.foldl (fun a c => 10 * a + (c.toNat - 48)) 0

/- Integer part per the CPython json NUMBER_RE: 0 or [1-9][0-9]*. -/

def parseIntPart : List Char → Option (Nat × List Char)
  | c :: cs =>
      if c = '0' then some (0, cs)
      else if isDigitChar c then
        let r := digitRun cs
        some (natOfDigits (c :: r.1), r.2)
      else Option.none
  | [] => Option.none

/- A numeric literal. CPython would go on to read a fraction or exponent
   as a float; floats are outside this model, so such literals make the
   parser fail instead of producing a value. -/

def parseNumber (neg : Bool) (cs : List Char) : Except String (PyVal × List Char) :=
  match parseIntPart cs with
  | Option.none => Except.error "Expecting value"
  | some (n, rest) =>
    match rest with
    | c :: _ =>
        if c = '.' ∨ c = 'e' ∨ c = 'E' then Except.error "float literal outside model"
        else Except.ok (PyVal.int (if neg then -(n : Int) else (n : Int)), rest)
    | [] => Except.ok (PyVal.int (if neg then -(n : Int) else (n : Int)), rest)

mutual

def parseVal : Nat → List Char → Except String (PyVal × List Char)
  | 0, _ => Except.error "fuel exhausted"
  | fuel + 1, cs =>
    match skipWs cs with
    | [] => Except.error "Expecting value"
    | c :: rest =>
      if c = lbraceChar then
        match skipWs rest with
        | [] => Except.error "Expecting property name"
        | c2 :: r2 =>
          if c2 = rbraceChar then Except.ok (PyVal.dict [], r2)
          else parseMembers fuel (c2 :: r2) []
      else if c = '[' then
        match skipWs rest with
        | [] => Except.error "Expecting value"
        | c2 :: r2 =>
          if c2 = ']' then Except.ok (PyVal.list [], r2)
          else parseItems fuel (c2 :: r2) []
      else if c = '"' then
        match parseStringBody (rest.length + 1) [] rest with
        | Except.error msg => Except.error msg
        | Except.ok (s, r2) => Except.ok (PyVal.str s, r2)
      else if c = '-' then parseNumber true rest
      else if isDigitChar c then parseNumber false (c :: rest)
      else if c = 't' ∧ rest.take 3 = ['r', 'u', 'e'] then
        Except.ok (PyVal.bool true, rest.drop 3)
      else if c = 'f' ∧ rest.take 4 = ['a', 'l', 's', 'e'] then
        Except.ok (PyVal.bool false, rest.drop 4)
      else if c = 'n' ∧ rest.take 3 = ['u', 'l', 'l'] then
        Except.ok (PyVal.none, rest.drop 3)
      else Except.error "Expecting value"

/- Object members, positioned at a key; duplicate keys overwrite (dict
   build-up with item assignment, last value wins). -/

def parseMembers : Nat → List Char → List (String × PyVal) →
    Except String (PyVal × List Char)
  | 0, _, _ => Except.error "fuel exhausted"
  | fuel + 1, cs, acc =>
    match cs with
    | '"' :: rest =>
      (match parseStringBody (rest.length + 1) [] rest with
      | Except.error msg => Except.error msg
      | Except.ok (k, r1) =>
        match skipWs r1 with
        | ':' :: r2 =>
          (match parseVal fuel r2 with
          | Except.error msg => Except.error msg
          | Except.ok (v, r3) =>
            let acc2 := dictInsert acc k v
            match skipWs r3 with
            | ',' :: r4 =>
              (match skipWs r4 with
              | [] => Except.error "Expecting property name"
              | c5 :: r5 => parseMembers fuel (c5 :: r5) acc2)
            | c4 :: r4 =>
              if c4 = rbraceChar then Except.ok (PyVal.dict acc2, r4)
              else Except.error "Expecting delimiter"
            | [] => Except.error "Expecting delimiter")
        | _ => Except.error "Expecting colon delimiter")
    | _ => Except.error "Expecting property name"

def parseItems : Nat → List Char → List PyVal → Except String (PyVal × List Char)
  | 0, _, _ => Except.error "fuel exhausted"
  | fuel + 1, cs, acc =>
    match parseVal fuel cs with
    | Except.error msg => Except.error msg
    | Except.ok (v, r1) =>
      match skipWs r1 with
      | ',' :: r2 => parseItems fuel r2 (v :: acc)
      | c2 :: r2 =>
        if c2 = ']' then Except.ok (PyVal.list (v :: acc).reverse, r2)
        else Except.error "Expecting delimiter"
      | [] => Except.error "Expecting delimiter"

end

/- json.loads on a string: one value, then only whitespace may remain. -/

def jsonLoads (s : String) : Except String PyVal :=
  match parseVal (s.data.length + 1) s.data with
  | Except.error msg => Except.error msg
  | Except.ok (v, rest) =>
    match skipWs rest with
    | [] => Except.ok v
    | _ => Except.error "Extra data"

/- ----------------------------------------------------------------
   json.dumps with the default options: ensure_ascii=True and the
   default separators (a space after : and after ,)
   ---------------------------------------------------------------- -/

def hex4 (n : Nat) : String :=
  String.mk [hexDigitChar (n / 4096 % 16), hexDigitChar (n / 256 % 16),
             hexDigitChar (n / 16 % 16), hexDigitChar (n % 16)]

def escChar (c : Char) : String :=
  if c = '"' then "\\\""
  else if c = '\\' then "\\\\"
  else if c = '\n' then "\\n"
  else if c = '\r' then "\\r"
  else if c = '\t' then "\\t"
  else if c = Char.ofNat 8 then "\\b"
  else if c = Char.ofNat 12 then "\\f"
  else if c.toNat < 32 ∨ 126 < c.toNat then
    if c.toNat < 65536 then "\\u" ++ hex4 c.toNat
    else
      "\\u" ++ hex4 (55296 + (c.toNat - 65536) / 1024) ++
        "\\u" ++ hex4 (56320 + (c.toNat - 65536) % 1024)
  else String.singleton c

def dumpsStr (s : String) : String :=
  "\"" ++ String.join (s.data.map escChar) ++ "\""

mutual

def jsonDumps : PyVal → String
  | PyVal.none => "null"
  | PyVal.bool true => "true"
  | PyVal.bool false => "false"
  | PyVal.int n => toString n
  | PyVal.str s => dumpsStr s
  | PyVal.list xs => "[" ++ String.intercalate ", " (dumpsList xs) ++ "]"
  | PyVal.dict kvs =>
      String.singleton lbraceChar ++ String.intercalate ", " (dumpsMembers kvs) ++
        String.singleton rbraceChar

def dumpsList : List PyVal → List String
  | [] => []
  | v :: vs => jsonDumps v :: dumpsList vs

def dumpsMembers : List (String × PyVal) → List String
  | [] => []
  | (k, v) :: kvs => (dumpsStr k ++ ": " ++ jsonDumps v) :: dumpsMembers kvs

end

/- ----------------------------------------------------------------
   The request pipeline (source lines 78-107)
   ---------------------------------------------------------------- -/

structure Config where
  backend : String
  dpSize : Nat
  routingHeader : String
  timeout : Nat
deriving Repr, DecidableEq

structure InboundRequest where
  method : String
  path : String
  rawQuery : String
  headers : List (String × String)
  body : String
deriving Repr, DecidableEq

structure OutboundRequest where
  method : String
  url : String
  headers : List (String × String)
  body : String
deriving Repr, DecidableEq

structure UpstreamResponse where
  statusCode : Nat
  headers : List (String × String)
  body : String
deriving Repr, DecidableEq

structure ClientResponse where
  content : String
  statusCode : Nat
  headers : List (String × String)
deriving Repr, DecidableEq

/- ASCII lowercasing, as Python str.lower acts on header names. -/

def strLower (s : String) : String := String.mk (s.data.map Char.toLower)

/- `request.headers.get(name)`: case-insensitive, first occurrence. -/

def headersGet : List (String × String) → String → Option String
  | [], _ => Option.none
  | p :: rest, name =>
      if strLower p.1 = strLower name then some p.2 else headersGet rest name

/- A Python dict comprehension over header items with a filter: entries
   are inserted in order, later duplicates overwriting earlier ones. -/

def pyDictComp (p : String × String → Bool) (items : List (String × String)) :
    List (String × String) :=
  items.foldl (fun acc kv => if p kv then dictInsert acc kv.1 kv.2 else acc) []

/- The filter of source lines 95-99: drop Host and Content-Length,
   case-insensitively. -/

def keepHeader (kv : String × String) : Bool :=
  !(strLower kv.1 == "host" || strLower kv.1 == "content-length")

/- Source lines 85-88: json.loads, rank, item assignment, json.dumps. -/

def rewriteBody (key : String) (dpSize : Nat) (body : String) : Except String String :=
  match jsonLoads body with
  | Except.error msg => Except.error msg
  | Except.ok data =>
    match pySetItem data "data_parallel_rank" (PyVal.int (rankSelector key dpSize)) with
    | Except.error msg => Except.error msg
    | Except.ok data2 => Except.ok (jsonDumps data2)

/- Source lines 82-89: the body forwarded upstream. Rewriting happens only
   for a POST with a non-empty body carrying a truthy routing key; the
   empty string is falsy in Python, like an absent header. -/

def forwardedBody (routingHeader : String) (dpSize : Nat) (method : String)
    (headers : List (String × String)) (body : String) : Except String String :=
  if method = "POST" ∧ body ≠ "" then
    match headersGet headers routingHeader with
    | some key => if key = "" then Except.ok body else rewriteBody key dpSize body
    | Option.none => Except.ok body
  else Except.ok body

/- Source lines 80-101: everything up to and including building the
   outbound request. An uncaught Python exception is an Except.error. -/

def proxyCore (cfg : Config) (req : InboundRequest) : Except String OutboundRequest :=
  match forwardedBody cfg.routingHeader cfg.dpSize req.method req.headers req.body with
  | Except.error msg => Except.error msg
  | Except.ok body =>
    Except.ok (OutboundRequest.mk req.method (cfg.backend ++ "/" ++ req.path)
      (pyDictComp keepHeader req.headers) body)

/- Source lines 103-107: the Response handed back to the caller;
   dict(resp.headers) is a dict built from the upstream header items. -/

def relayResponse (resp : UpstreamResponse) : ClientResponse :=
  ClientResponse.mk resp.body resp.statusCode (pyDictComp (fun _ => true) resp.headers)

/- The whole handler, with the upstream modelled as a function from the
   outbound request to the upstream response. -/

def proxyHandler (cfg : Config) (upstream : OutboundRequest → UpstreamResponse)
    (req : InboundRequest) : Except String ClientResponse :=
  match proxyCore cfg req with
  | Except.error msg => Except.error msg
  | Except.ok out => Except.ok (relayResponse (upstream out))

example : jsonLoads " \x7b\"prompt\": \"hi\"\x7d " =
    Except.ok (PyVal.dict [("prompt", PyVal.str "hi")]) := by rfl

example : rewriteBody "abc" 16 "\x7b\"prompt\":\"hi\"\x7d" =
    Except.ok "\x7b\"prompt\": \"hi\", \"data_parallel_rank\": 13\x7d" := by rfl

example : jsonLoads "[1, 2]" = Except.ok (PyVal.list [PyVal.int 1, PyVal.int 2]) := by rfl

example : (jsonLoads "\x7b\"a\": [true, null, \"x\\n\"]\x7d").isOk = true := by rfl

/- ----------------------------------------------------------------
   Helper lemmas
   ---------------------------------------------------------------- -/

lemma hexCharVal_hexDigitChar : ∀ d, d < 16 → hexCharVal (hexDigitChar d) = d := by decide

lemma intOfHex_hexChars (bs : List Nat) (acc : Nat) (h : ∀ b ∈ bs, b < 256) :
    List.foldl (fun a c => 16 * a + hexCharVal c) acc (hexChars bs)
      = List.foldl (fun a b => 256 * a + b) acc bs := by
  induction bs generalizing acc with
  | nil => rfl
  | cons b bs ih =>
    have hb : b < 256 := h b (List.mem_cons_self ..)
    have hdiv : b / 16 < 16 := by omega
    have hmod : b % 16 < 16 := by omega
    have hstep : hexChars (b :: bs)
        = hexDigitChar (b / 16) :: hexDigitChar (b % 16) :: hexChars bs := rfl
    have hacc : 16 * (16 * acc + hexCharVal (hexDigitChar (b / 16)))
          + hexCharVal (hexDigitChar (b % 16)) = 256 * acc + b := by
      rw [hexCharVal_hexDigitChar _ hdiv, hexCharVal_hexDigitChar _ hmod]
      omega
    rw [hstep]
    simp only [List.foldl_cons]
    rw [hacc]
    exact ih _ (fun x hx => h x (List.mem_cons_of_mem _ hx))

lemma sha256Digest_lt (ms : List Nat) : ∀ b ∈ sha256Digest ms, b < 256 := by
  intro b hb
  simp only [sha256Digest, List.mem_flatMap, List.mem_cons, List.not_mem_nil, or_false] at hb
  obtain ⟨w, _, hbw⟩ := hb
  rcases hbw with h | h | h | h <;> omega

lemma intOfHex_hexdigest (ms : List Nat) :
    intOfHex (hexdigest ms) = beIntOfBytes (sha256Digest ms) :=
  intOfHex_hexChars (sha256Digest ms) 0 (sha256Digest_lt ms)

/- ----------------------------------------------------------------
   Claim theorems
   ---------------------------------------------------------------- -/

/-- C1: for every routing key and partition count the rank equals the
SHA-256 digest of the key bytes read as a single big-endian unsigned
integer, reduced mod N; for key abc and N = 16 the digest is the standard
test vector, the rank is 13, and rewriting the one-field body with prompt
mapping to hi yields exactly the object with prompt mapping to hi and
data_parallel_rank mapping to 13. -/
theorem rank_is_bigendian_sha256_mod :
    (∀ (key : String) (n : Nat),
        rankSelector key n = beIntOfBytes (sha256Digest (strBytes key)) % n) ∧
    sha256Digest (strBytes "abc") =
      [186, 120, 22, 191, 143, 1, 207, 234, 65, 65, 64, 222, 93, 174, 34, 35,
       176, 3, 97, 163, 150, 23, 122, 156, 180, 16, 255, 97, 242, 0, 21, 173] ∧
    rankSelector "abc" 16 = 13 ∧
    rewriteBody "abc" 16 "\x7b\"prompt\":\"hi\"\x7d" =
      Except.ok "\x7b\"prompt\": \"hi\", \"data_parallel_rank\": 13\x7d" ∧
    jsonLoads "\x7b\"prompt\": \"hi\", \"data_parallel_rank\": 13\x7d" =
      Except.ok (PyVal.dict [("prompt", PyVal.str "hi"), ("data_parallel_rank", PyVal.int 13)]) := by
  refine ⟨fun key n => ?_, by decide, by decide, by rfl, by rfl⟩
  unfold rankSelector
  rw [intOfHex_hexdigest]

/-- C2: for every routing key and every partition count N greater than 0
the computed rank lies in the interval from 0 inclusive to N exclusive. -/
theorem rank_in_range (key : String) (n : Nat) (h : 0 < n) :
    0 ≤ rankSelector key n ∧ rankSelector key n < n :=
  ⟨Nat.zero_le _, Nat.mod_lt _ h⟩

theorem rank_in_range_witness :
    0 ≤ rankSelector "abc" 16 ∧ rankSelector "abc" 16 < 16 :=
  rank_in_range "abc" 16 (by decide)

/-- C3: the rank decision is a pure deterministic function of the routing
key and the partition count: two pipeline runs that agree on the partition
count and routing header name — but may differ in every other piece of
per-process configuration, such as the backend address or the timeout —
forward the same body, hence inject the same rank. -/
theorem rank_decision_deterministic (cfg1 cfg2 : Config) (req : InboundRequest)
    (o1 o2 : OutboundRequest)
    (hn : cfg1.dpSize = cfg2.dpSize) (hh : cfg1.routingHeader = cfg2.routingHeader)
    (h1 : proxyCore cfg1 req = Except.ok o1) (h2 : proxyCore cfg2 req = Except.ok o2) :
    o1.body = o2.body := by
  unfold proxyCore at h1 h2
  rw [hn, hh] at h1
  cases e : forwardedBody cfg2.routingHeader cfg2.dpSize req.method req.headers req.body with
  | error msg => rw [e] at h1; simp at h1
  | ok b =>
    rw [e] at h1 h2
    simp only [Except.ok.injEq] at h1 h2
    rw [← h1, ← h2]

theorem rank_decision_deterministic_witness :
    (OutboundRequest.mk "POST" "http://a:8000/generate"
        [("x-smg-routing-key", "abc")]
        "\x7b\"prompt\": \"hi\", \"data_parallel_rank\": 13\x7d").body =
    (OutboundRequest.mk "POST" "http://b:9000/generate"
        [("x-smg-routing-key", "abc")]
        "\x7b\"prompt\": \"hi\", \"data_parallel_rank\": 13\x7d").body :=
  rank_decision_deterministic
    (Config.mk "http://a:8000" 16 "X-SMG-Routing-Key" 600)
    (Config.mk "http://b:9000" 16 "X-SMG-Routing-Key" 300)
    (InboundRequest.mk "POST" "generate" ""
      [("x-smg-routing-key", "abc")] "\x7b\"prompt\":\"hi\"\x7d")
    (OutboundRequest.mk "POST" "http://a:8000/generate"
      [("x-smg-routing-key", "abc")]
      "\x7b\"prompt\": \"hi\", \"data_parallel_rank\": 13\x7d")
    (OutboundRequest.mk "POST" "http://b:9000/generate"
      [("x-smg-routing-key", "abc")]
      "\x7b\"prompt\": \"hi\", \"data_parallel_rank\": 13\x7d")
    rfl rfl (by rfl) (by rfl)

/- Pass-through lemma: an absent or empty routing key leaves the body alone. -/

lemma forwardedBody_no_key (routingHeader : String) (dpSize : Nat) (method : String)
    (headers : List (String × String)) (body : String)
    (h : headersGet headers routingHeader = Option.none ∨
         headersGet headers routingHeader = some "") :
    forwardedBody routingHeader dpSize method headers body = Except.ok body := by
  unfold forwardedBody
  by_cases hc : method = "POST" ∧ body ≠ ""
  · rw [if_pos hc]
    rcases h with h | h <;> simp [h]
  · rw [if_neg hc]

/- Pass-through lemma: the gating condition on method and body. -/

lemma forwardedBody_not_gated (routingHeader : String) (dpSize : Nat) (method : String)
    (headers : List (String × String)) (body : String)
    (h : method ≠ "POST" ∨ body = "") :
    forwardedBody routingHeader dpSize method headers body = Except.ok body := by
  unfold forwardedBody
  have hc : ¬(method = "POST" ∧ body ≠ "") := by tauto
  rw [if_neg hc]

/-- C4: when the configured routing header is absent from the request, or
present with the empty string as its value, the pipeline succeeds and the
body forwarded upstream is exactly the received body, with no
data_parallel_rank field injected. -/
theorem passthrough_absent_or_empty_key (cfg : Config) (req : InboundRequest)
    (h : headersGet req.headers cfg.routingHeader = Option.none ∨
         headersGet req.headers cfg.routingHeader = some "") :
    proxyCore cfg req =
      Except.ok (OutboundRequest.mk req.method (cfg.backend ++ "/" ++ req.path)
        (pyDictComp keepHeader req.headers) req.body) := by
  unfold proxyCore
  rw [forwardedBody_no_key _ _ _ _ _ h]

theorem passthrough_absent_or_empty_key_witness :
    proxyCore (Config.mk "http://127.0.0.1:8000" 16 "X-SMG-Routing-Key" 600)
      (InboundRequest.mk "POST" "generate" ""
        [("accept", "*/*"), ("x-smg-routing-key", "")] "\x7b\"prompt\":\"hi\"\x7d") =
      Except.ok (OutboundRequest.mk "POST" "http://127.0.0.1:8000/generate"
        (pyDictComp keepHeader [("accept", "*/*"), ("x-smg-routing-key", "")])
        "\x7b\"prompt\":\"hi\"\x7d") :=
  passthrough_absent_or_empty_key _ _ (Or.inr (by rfl))

/-- C5: body rewriting is attempted only for a POST with a non-empty body;
for any other method, or an empty body, the body is forwarded unmodified
even when the routing header is present. -/
theorem passthrough_not_gated (cfg : Config) (req : InboundRequest)
    (h : req.method ≠ "POST" ∨ req.body = "") :
    proxyCore cfg req =
      Except.ok (OutboundRequest.mk req.method (cfg.backend ++ "/" ++ req.path)
        (pyDictComp keepHeader req.headers) req.body) := by
  unfold proxyCore
  rw [forwardedBody_not_gated _ _ _ _ _ h]

theorem passthrough_not_gated_witness :
    proxyCore (Config.mk "http://127.0.0.1:8000" 16 "X-SMG-Routing-Key" 600)
      (InboundRequest.mk "GET" "health" ""
        [("x-smg-routing-key", "abc")] "") =
      Except.ok (OutboundRequest.mk "GET" "http://127.0.0.1:8000/health"
        (pyDictComp keepHeader [("x-smg-routing-key", "abc")]) "") :=
  passthrough_not_gated _ _ (Or.inl (by decide))

/-- C6: a POST carrying a non-empty routing key whose non-empty body is not
a well-formed JSON object — malformed syntax, or a document that parses to
an array or scalar — makes the pipeline fail before any upstream call: the
handler returns the error no matter what the upstream would answer. -/
theorem reject_non_object_body (cfg : Config) (req : InboundRequest) (key : String)
    (hm : req.method = "POST") (hb : req.body ≠ "")
    (hk : headersGet req.headers cfg.routingHeader = some key) (hke : key ≠ "")
    (h : (∃ e, jsonLoads req.body = Except.error e) ∨
         (∃ v, jsonLoads req.body = Except.ok v ∧ PyVal.isDict v = false)) :
    ∃ msg, proxyCore cfg req = Except.error msg ∧
      ∀ upstream : OutboundRequest → UpstreamResponse,
        proxyHandler cfg upstream req = Except.error msg := by
  have hrw : ∃ msg, rewriteBody key cfg.dpSize req.body = Except.error msg := by
    unfold rewriteBody
    rcases h with ⟨e, he⟩ | ⟨v, hv, hnd⟩
    · rw [he]; exact ⟨e, rfl⟩
    · rw [hv]
      cases v with
      | dict kvs => simp [PyVal.isDict] at hnd
      | none => exact ⟨_, rfl⟩
      | bool b => exact ⟨_, rfl⟩
      | int n => exact ⟨_, rfl⟩
      | str s => exact ⟨_, rfl⟩
      | list xs => exact ⟨_, rfl⟩
  obtain ⟨msg, hmsg⟩ := hrw
  have hfb : forwardedBody cfg.routingHeader cfg.dpSize req.method req.headers req.body
      = Except.error msg := by
    unfold forwardedBody
    rw [if_pos ⟨hm, hb⟩, hk]
    show (if key = "" then Except.ok req.body else rewriteBody key cfg.dpSize req.body)
      = Except.error msg
    rw [if_neg hke]
    exact hmsg
  refine ⟨msg, ?_, fun upstream => ?_⟩
  · unfold proxyCore
    rw [hfb]
  · unfold proxyHandler proxyCore
    rw [hfb]

theorem reject_non_object_body_witness :
    ∃ msg, proxyCore (Config.mk "http://127.0.0.1:8000" 4 "X-SMG-Routing-Key" 600)
        (InboundRequest.mk "POST" "generate" ""
          [("x-smg-routing-key", "abc")] "[1, 2]") = Except.error msg ∧
      ∀ upstream : OutboundRequest → UpstreamResponse,
        proxyHandler (Config.mk "http://127.0.0.1:8000" 4 "X-SMG-Routing-Key" 600) upstream
          (InboundRequest.mk "POST" "generate" ""
            [("x-smg-routing-key", "abc")] "[1, 2]") = Except.error msg :=
  reject_non_object_body _ _ "abc" rfl (by decide) (by rfl) (by decide)
    (Or.inr ⟨PyVal.list [PyVal.int 1, PyVal.int 2], by rfl, by rfl⟩)

/- Association-list lemmas about Python item assignment. -/

lemma dictGet_insert_self {α : Type} (l : List (String × α)) (k : String) (v : α) :
    dictGet (dictInsert l k v) k = some v := by
  induction l with
  | nil => simp [dictInsert, dictGet]
  | cons p rest ih =>
    by_cases hp : p.1 = k
    · simp [dictInsert, hp, dictGet]
    · simp [dictInsert, hp, dictGet, ih]

lemma dictGet_insert_ne {α : Type} (l : List (String × α)) (k : String) (v : α)
    (f : String) (h : k ≠ f) :
    dictGet (dictInsert l k v) f = dictGet l f := by
  induction l with
  | nil => simp [dictInsert, dictGet, h]
  | cons p rest ih =>
    by_cases hp : p.1 = k
    · simp [dictInsert, hp, dictGet, h]
    · simp [dictInsert, hp, dictGet, ih]

/-- C7: when rewriting succeeds the output is the serialization of the
parsed object with data_parallel_rank set to the computed rank; every
field other than data_parallel_rank keeps exactly its original value, and
data_parallel_rank holds the rank, overwriting any pre-existing field of
that name. -/
theorem rewrite_preserves_other_fields (key : String) (n : Nat) (body out : String)
    (kvs : List (String × PyVal))
    (hp : jsonLoads body = Except.ok (PyVal.dict kvs))
    (hr : rewriteBody key n body = Except.ok out) :
    out = jsonDumps (PyVal.dict
      (dictInsert kvs "data_parallel_rank" (PyVal.int (rankSelector key n)))) ∧
    (∀ f, f ≠ "data_parallel_rank" →
      dictGet (dictInsert kvs "data_parallel_rank" (PyVal.int (rankSelector key n))) f
        = dictGet kvs f) ∧
    dictGet (dictInsert kvs "data_parallel_rank" (PyVal.int (rankSelector key n)))
      "data_parallel_rank" = some (PyVal.int (rankSelector key n)) := by
  unfold rewriteBody at hr
  rw [hp] at hr
  simp only [pySetItem, Except.ok.injEq] at hr
  exact ⟨hr.symm,
    fun f hf => dictGet_insert_ne _ _ _ _ (fun e => hf e.symm),
    dictGet_insert_self _ _ _⟩

theorem rewrite_preserves_other_fields_witness :
    ("\x7b\"prompt\": \"hi\", \"data_parallel_rank\": 13\x7d" : String)
      = jsonDumps (PyVal.dict (dictInsert [("prompt", PyVal.str "hi")]
          "data_parallel_rank" (PyVal.int (rankSelector "abc" 16)))) ∧
    (∀ f, f ≠ "data_parallel_rank" →
      dictGet (dictInsert [("prompt", PyVal.str "hi")] "data_parallel_rank"
        (PyVal.int (rankSelector "abc" 16))) f
        = dictGet [("prompt", PyVal.str "hi")] f) ∧
    dictGet (dictInsert [("prompt", PyVal.str "hi")] "data_parallel_rank"
      (PyVal.int (rankSelector "abc" 16))) "data_parallel_rank"
      = some (PyVal.int (rankSelector "abc" 16)) :=
  rewrite_preserves_other_fields "abc" 16 "\x7b\"prompt\":\"hi\"\x7d" _
    [("prompt", PyVal.str "hi")] (by rfl) (by rfl)

/- Dict comprehension lemmas: membership and, for duplicate-free header
   mappings, extensional equality with a plain filter. -/

lemma mem_dictInsert {α : Type} (l : List (String × α)) (k : String) (v : α)
    (x : String × α) (h : x ∈ dictInsert l k v) : x ∈ l ∨ x = (k, v) := by
  induction l with
  | nil =>
    simp only [dictInsert, List.mem_singleton] at h
    exact Or.inr h
  | cons p rest ih =>
    by_cases hp : p.1 = k
    · simp only [dictInsert, if_pos hp, List.mem_cons] at h
      rcases h with h | h
      · exact Or.inr h
      · exact Or.inl (List.mem_cons_of_mem _ h)
    · simp only [dictInsert, if_neg hp, List.mem_cons] at h
      rcases h with h | h
      · exact Or.inl (h ▸ List.mem_cons_self ..)
      · rcases ih h with h2 | h2
        · exact Or.inl (List.mem_cons_of_mem _ h2)
        · exact Or.inr h2

lemma pyDictComp_mem_aux (p : String × String → Bool) (items acc : List (String × String))
    (hacc : ∀ kv ∈ acc, p kv = true) :
    ∀ kv ∈ items.foldl (fun a kv => if p kv then dictInsert a kv.1 kv.2 else a) acc,
      p kv = true := by
  induction items generalizing acc with
  | nil => exact hacc
  | cons x xs ih =>
    intro kv hkv
    simp only [List.foldl_cons] at hkv
    by_cases hx : p x
    · rw [if_pos hx] at hkv
      refine ih (dictInsert acc x.1 x.2) ?_ kv hkv
      intro y hy
      rcases mem_dictInsert _ _ _ _ hy with h | h
      · exact hacc y h
      · subst h; exact hx
    · rw [if_neg hx] at hkv
      exact ih acc hacc kv hkv

lemma pyDictComp_mem (p : String × String → Bool) (items : List (String × String)) :
    ∀ kv ∈ pyDictComp p items, p kv = true :=
  pyDictComp_mem_aux p items [] (by intro kv h; cases h)

lemma dictInsert_eq_append {α : Type} (l : List (String × α)) (k : String) (v : α)
    (h : k ∉ l.map Prod.fst) : dictInsert l k v = l ++ [(k, v)] := by
  induction l with
  | nil => rfl
  | cons p rest ih =>
    simp only [List.map_cons, List.mem_cons] at h
    push_neg at h
    rw [dictInsert, if_neg (fun e => h.1 e.symm)]
    rw [ih h.2]
    rfl

lemma pyDictComp_nodup_aux (p : String × String → Bool) (items acc : List (String × String))
    (hnd : (items.map Prod.fst).Nodup)
    (hdisj : ∀ k ∈ items.map Prod.fst, k ∉ acc.map Prod.fst) :
    items.foldl (fun a kv => if p kv then dictInsert a kv.1 kv.2 else a) acc
      = acc ++ items.filter p := by
  induction items generalizing acc with
  | nil => simp
  | cons x xs ih =>
    simp only [List.map_cons, List.nodup_cons] at hnd
    simp only [List.foldl_cons]
    by_cases hx : p x
    · rw [if_pos hx]
      have hx1 : x.1 ∉ acc.map Prod.fst := hdisj x.1 (by simp)
      rw [dictInsert_eq_append acc x.1 x.2 hx1]
      rw [ih (acc ++ [(x.1, x.2)]) hnd.2 ?_]
      · rw [List.filter_cons, if_pos hx]
        simp
      · intro k hk
        simp only [List.map_append, List.mem_append, List.map_cons, List.map_nil,
          List.mem_singleton, not_or]
        refine ⟨hdisj k (List.mem_cons_of_mem _ hk), ?_⟩
        intro e
        exact hnd.1 (e ▸ hk)
    · rw [if_neg hx]
      rw [ih acc hnd.2 (fun k hk => hdisj k (List.mem_cons_of_mem _ hk))]
      rw [List.filter_cons, if_neg hx]

lemma pyDictComp_eq_filter (p : String × String → Bool) (items : List (String × String))
    (h : (items.map Prod.fst).Nodup) : pyDictComp p items = items.filter p := by
  unfold pyDictComp
  rw [pyDictComp_nodup_aux p items [] h (by simp)]
  rfl

/-- C8: the outbound header mapping never contains a key equal to Host or
Content-Length under case-insensitive comparison; on a header mapping with
distinct keys the comprehension keeps every other header unchanged (it is
the plain filter); and the outbound request of the pipeline carries
exactly that filtered mapping. -/
theorem header_hygiene :
    (∀ (hs : List (String × String)) (kv : String × String),
        kv ∈ pyDictComp keepHeader hs →
        strLower kv.1 ≠ "host" ∧ strLower kv.1 ≠ "content-length") ∧
    (∀ hs : List (String × String), (hs.map Prod.fst).Nodup →
        pyDictComp keepHeader hs = hs.filter keepHeader) ∧
    (∀ (cfg : Config) (req : InboundRequest) (out : OutboundRequest),
        proxyCore cfg req = Except.ok out →
        out.headers = pyDictComp keepHeader req.headers) := by
  refine ⟨?_, fun hs h => pyDictComp_eq_filter keepHeader hs h, ?_⟩
  · intro hs kv hkv
    have h := pyDictComp_mem keepHeader hs kv hkv
    unfold keepHeader at h
    constructor
    · intro e
      simp [e] at h
    · intro e
      simp [e] at h
  · intro cfg req out h
    unfold proxyCore at h
    cases e : forwardedBody cfg.routingHeader cfg.dpSize req.method req.headers req.body with
    | error msg => rw [e] at h; simp at h
    | ok b =>
      rw [e] at h
      simp only [Except.ok.injEq] at h
      rw [← h]

theorem header_hygiene_witness :
    (strLower ("X-Api-Key", "v").1 ≠ "host" ∧
      strLower ("X-Api-Key", "v").1 ≠ "content-length") ∧
    pyDictComp keepHeader [("Host", "h"), ("Content-Length", "3"), ("X-Api-Key", "v")]
      = [("Host", "h"), ("Content-Length", "3"), ("X-Api-Key", "v")].filter keepHeader :=
  ⟨header_hygiene.1 [("Host", "h"), ("Content-Length", "3"), ("X-Api-Key", "v")]
      ("X-Api-Key", "v") (by decide),
   header_hygiene.2.1 [("Host", "h"), ("Content-Length", "3"), ("X-Api-Key", "v")] (by decide)⟩

/-- C9: the response handed back to the caller keeps the upstream status
code and a byte-identical body; on an upstream header mapping with
distinct keys the header mapping is returned identically, nothing added,
removed or rewritten; and a successful handler run returns exactly the
relay of what the upstream answered for the outbound request. -/
theorem response_relay_verbatim :
    (∀ resp : UpstreamResponse,
        (relayResponse resp).statusCode = resp.statusCode ∧
        (relayResponse resp).content = resp.body) ∧
    (∀ resp : UpstreamResponse, (resp.headers.map Prod.fst).Nodup →
        (relayResponse resp).headers = resp.headers) ∧
    (∀ (cfg : Config) (upstream : OutboundRequest → UpstreamResponse)
        (req : InboundRequest) (c : ClientResponse),
        proxyHandler cfg upstream req = Except.ok c →
        ∃ out, proxyCore cfg req = Except.ok out ∧ c = relayResponse (upstream out)) := by
  refine ⟨fun resp => ⟨rfl, rfl⟩, ?_, ?_⟩
  · intro resp h
    show pyDictComp (fun _ => true) resp.headers = resp.headers
    rw [pyDictComp_eq_filter _ _ h]
    simp
  · intro cfg upstream req c h
    unfold proxyHandler at h
    cases e : proxyCore cfg req with
    | error msg => rw [e] at h; simp at h
    | ok out =>
      rw [e] at h
      simp only [Except.ok.injEq] at h
      exact ⟨out, rfl, h.symm⟩

theorem response_relay_verbatim_witness :
    ((relayResponse (UpstreamResponse.mk 200 [("content-type", "application/json")]
        "\x7b\"ok\": true\x7d")).statusCode = 200 ∧
      (relayResponse (UpstreamResponse.mk 200 [("content-type", "application/json")]
        "\x7b\"ok\": true\x7d")).content = "\x7b\"ok\": true\x7d") ∧
    (relayResponse (UpstreamResponse.mk 200 [("content-type", "application/json")]
        "\x7b\"ok\": true\x7d")).headers = [("content-type", "application/json")] :=
  ⟨response_relay_verbatim.1 _,
   response_relay_verbatim.2.1
     (UpstreamResponse.mk 200 [("content-type", "application/json")] "\x7b\"ok\": true\x7d")
     (by decide)⟩

/-- C10: the outbound URL is exactly the backend base URL, a slash, and the
request path; the inbound query string is never read, so two requests
differing only in their query string produce identical outbound
requests. -/
theorem outbound_url_ignores_query :
    (∀ (cfg : Config) (req : InboundRequest) (out : OutboundRequest),
        proxyCore cfg req = Except.ok out →
        out.url = cfg.backend ++ "/" ++ req.path) ∧
    (∀ (cfg : Config) (m p q1 q2 : String) (hs : List (String × String)) (b : String),
        proxyCore cfg (InboundRequest.mk m p q1 hs b)
          = proxyCore cfg (InboundRequest.mk m p q2 hs b)) := by
  refine ⟨?_, fun cfg m p q1 q2 hs b => rfl⟩
  intro cfg req out h
  unfold proxyCore at h
  cases e : forwardedBody cfg.routingHeader cfg.dpSize req.method req.headers req.body with
  | error msg => rw [e] at h; simp at h
  | ok b =>
    rw [e] at h
    simp only [Except.ok.injEq] at h
    rw [← h]

theorem outbound_url_ignores_query_witness :
    (OutboundRequest.mk "GET" "http://127.0.0.1:8000/v1/models" [] "").url
      = "http://127.0.0.1:8000" ++ "/" ++ "v1/models" :=
  outbound_url_ignores_query.1
    (Config.mk "http://127.0.0.1:8000" 16 "X-SMG-Routing-Key" 600)
    (InboundRequest.mk "GET" "v1/models" "limit=5" [] "")
    (OutboundRequest.mk "GET" "http://127.0.0.1:8000/v1/models" [] "")
    (by rfl)
